import Mathlib

/-!
Shallow embedding of the two scripts
`skills/javascriptkit/scripts/install-sdk.py` and
`skills/javascriptkit/scripts/doctor.py`.

Python strings are modelled as Lean `String` (a wrapper around `List Char`);
the Python string operations used by the scripts (`in`, `startswith`,
`endswith`, `replace`, `lower`, slicing) are modelled explicitly below.
Network fetches (`fetch_json`) and subprocess results are modelled as inputs:
an `Option` value where `none` means the fetch/subprocess raised an exception.
-/

/-- Model of Python `p` being a prefix of `s`, on character lists. -/
def listPrefixB : List Char → List Char → Bool
  | [], _ => true
  | _ :: _, [] => false
  | a :: as, b :: bs => a == b && listPrefixB as bs

/-- Model of Python `needle in hay` (substring containment), on character
lists: `needle` is a prefix of some suffix of `hay`. -/
def listInfixB (needle : List Char) : List Char → Bool
  | [] => needle.isEmpty
  | c :: cs => listPrefixB needle (c :: cs) || listInfixB needle cs

/-- Python `needle in hay` for strings. -/
def pyIn (needle hay : String) : Bool :=
  listInfixB needle.data hay.data

/-- Python `s.startswith(p)`. -/
def pyStartsWith (s p : String) : Bool :=
  listPrefixB p.data s.data

/-- Python `s.endswith(p)`. -/
def pyEndsWith (s p : String) : Bool :=
  listPrefixB p.data.reverse s.data.reverse

/-- Python `s.lower()` (the scripts only ever feed it ASCII). -/
def pyLower (s : String) : String :=
  ⟨s.data.map Char.toLower⟩

/-- Core of Python `s.replace(old, new)`: scan left to right, replacing
non-overlapping occurrences of `old`.  Both call sites in the scripts use a
non-empty `old`; for `old = []` this returns the input unchanged. -/
def replList (old new : List Char) : List Char → List Char
  | [] => []
  | c :: cs =>
    if !old.isEmpty && listPrefixB old (c :: cs) then
      new ++ replList old new (cs.drop (old.length - 1))
    else
      c :: replList old new cs
termination_by l => l.length
decreasing_by
  · simp only [List.length_drop, List.length_cons]
    omega
  · simp

/-- Python `s.replace(old, new)` for strings. -/
def pyReplace (s old new : String) : String :=
  ⟨replList old.data new.data s.data⟩

/-- Characters matched by the character class `[0-9.]`. -/
def isVerChar (c : Char) : Bool := c.isDigit || c == '.'

/-- Model of `re.match(r"swift-([0-9.]+)-DEVELOPMENT", s)`, returning the
captured group.  The greedy `[0-9.]+` takes the maximal run of digits/dots
after `swift-`; backtracking cannot help because `-DEVELOPMENT` starts with a
character outside the class. -/
def reMatchSwiftDev (s : String) : Option String :=
  if pyStartsWith s "swift-" then
    let rest := s.data.drop 6
    let ver := rest.takeWhile isVerChar
    if !ver.isEmpty && listPrefixB "-DEVELOPMENT".data (rest.drop ver.length) then
      some ⟨ver⟩
    else none
  else none

/-- Model of `re.match(r"swift-([0-9.]+)", s)`, returning the captured group
(the maximal run of digits/dots after `swift-`). -/
def reMatchSwiftVer (s : String) : Option String :=
  if pyStartsWith s "swift-" then
    let ver := (s.data.drop 6).takeWhile isVerChar
    if !ver.isEmpty then some ⟨ver⟩ else none
  else none

/-- Model of `re.match(r"^[0-9.]+$", s)` viewed as a Boolean test: one or
more class characters spanning the whole string, where Python's `$` also
matches just before a single newline at the very end of the string. -/
def reFullNumeric (s : String) : Bool :=
  let t := if s.data.getLast? = some '\n' then s.data.dropLast else s.data
  !t.isEmpty && t.all isVerChar

/-- Model of `re.search(r"[0-9.]+", s)` viewed as a Boolean test: the string
contains at least one digit or dot. -/
def reSearchNumeric (s : String) : Bool :=
  s.data.any isVerChar

/-- One element of a release's `platforms` list in the stable catalog. -/
structure Platform where
  platform : String
  checksum : String
deriving DecidableEq, Repr

/-- One entry of the stable release catalog (`releases.json`). -/
structure Release where
  name : String
  tag : String
  platforms : List Platform
deriving DecidableEq, Repr

/-- One entry of a per-branch snapshot catalog (`wasm-sdk.json`). -/
structure Snap where
  dir : String
  download : String
  checksum : String
deriving DecidableEq, Repr

/-- The resolver's result: download URL plus checksum. -/
structure SdkInfo where
  url : String
  checksum : String
deriving DecidableEq, Repr

/-- Outcome of running one of the entry points: process exit code, the list
of catalog URLs fetched over the network (in order), and the printed lines. -/
structure RunResult where
  exitCode : Nat
  netCalls : List String
  lines : List String
deriving DecidableEq, Repr

/-- URL of the stable release catalog fetched by `find_release_sdk`. -/
def releasesUrl : String := "https://www.swift.org/api/v1/install/releases.json"

/-- URL of the per-branch snapshot catalog fetched by `find_dev_sdk`. -/
def devCatalogUrl (b : String) : String :=
  "https://www.swift.org/api/v1/install/dev/" ++ b ++ "/wasm-sdk.json"

/-- The line `fetch_json` prints when the fetch raises exception `e`. -/
def fetchErrLine (url e : String) : String :=
  "Error fetching " ++ url ++ ": " ++ e

/-- Normalization step of `find_release_sdk`: `version_id[6:-8]` when the
identity starts with `swift-` and ends with `-RELEASE`, else unchanged. -/
def normVersion (vid : String) : String :=
  if pyStartsWith vid "swift-" && pyEndsWith vid "-RELEASE" then
    ⟨(vid.data.take (vid.data.length - 8)).drop 6⟩
  else vid

/-- The match test of the outer loop in `find_release_sdk`:
`release["name"] == norm_version or release["tag"] == version_id`. -/
def releaseMatches (norm vid : String) (r : Release) : Bool :=
  r.name == norm || r.tag == vid

/-- Inner loop of `find_release_sdk`: first platform whose `platform` field
is `"wasm-sdk"`. -/
def findWasmPlatform : List Platform → Option Platform
  | [] => none
  | p :: ps => if p.platform == "wasm-sdk" then some p else findWasmPlatform ps

/-- The release download-URL template of `find_release_sdk`. -/
def releaseUrl (version tag : String) : String :=
  "https://download.swift.org/swift-" ++ version ++ "-release/wasm-sdk/" ++
    tag ++ "/" ++ tag ++ "_wasm.artifactbundle.tar.gz"

/-- Outer loop of `find_release_sdk`: scan the catalog in order; on a
name-or-tag match, return the artifact built from the entry's wasm-sdk
platform — but when the matching entry has no wasm-sdk platform the Python
`for` loop simply continues with the next entry. -/
def searchReleases (norm vid : String) : List Release → Option SdkInfo
  | [] => none
  | r :: rs =>
    if releaseMatches norm vid r then
      match findWasmPlatform r.platforms with
      | some p => some ⟨releaseUrl r.name r.tag, p.checksum⟩
      | none => searchReleases norm vid rs
    else searchReleases norm vid rs

/-- `find_release_sdk(version_id)`, with the catalog fetch modelled as the
`releases` argument (`none` = `fetch_json` returned `None`; the Python
`if not releases` guard also treats an empty list as failure). -/
def find_release_sdk (releases : Option (List Release)) (vid : String) :
    Option SdkInfo :=
  match releases with
  | none => none
  | some rs =>
    if rs.isEmpty then none
    else searchReleases (normVersion vid) vid rs

/-- The snapshot download-URL template of `find_dev_sdk`. -/
def devUrl (dir download : String) : String :=
  "https://download.swift.org/development/wasm-sdk/" ++ dir ++ "/" ++ download

/-- Inner loop of `find_dev_sdk`: first snapshot entry `s` with
`s.dir in version_id or version_id in s.dir`. -/
def searchSnaps (vid : String) : List Snap → Option SdkInfo
  | [] => none
  | s :: ss =>
    if pyIn s.dir vid || pyIn vid s.dir then
      some ⟨devUrl s.dir s.download, s.checksum⟩
    else searchSnaps vid ss

/-- The candidate-branch list `branches_to_try` built by `find_dev_sdk`. -/
def branchesToTry (vid : String) : List String :=
  let branch :=
    match reMatchSwiftDev vid with
    | some v => "swift-" ++ v ++ "-branch"
    | none => "main"
  let base := [branch, "main"]
  if pyIn "DEVELOPMENT" vid then
    match reMatchSwiftVer vid with
    | some v => ("swift-" ++ v ++ "-release") :: base
    | none => base
  else base

/-- What one iteration of the branch loop of `find_dev_sdk` yields for
branch `b`: `none` when the fetch failed, returned `[]`, or no entry
matched. -/
def branchLookup (fetch : String → Option (List Snap)) (vid b : String) :
    Option SdkInfo :=
  match fetch b with
  | none => none
  | some l => searchSnaps vid l

/-- Branch loop of `find_dev_sdk`: returns the result together with the list
of branches whose catalog was fetched (in order), stopping at the first
branch that yields a match. -/
def devLoop (fetch : String → Option (List Snap)) (vid : String) :
    List String → Option SdkInfo × List String
  | [] => (none, [])
  | b :: bs =>
    match fetch b with
    | none =>
      let r := devLoop fetch vid bs
      (r.1, b :: r.2)
    | some l =>
      if l.isEmpty then
        let r := devLoop fetch vid bs
        (r.1, b :: r.2)
      else
        match searchSnaps vid l with
        | some x => (some x, [b])
        | none =>
          let r := devLoop fetch vid bs
          (r.1, b :: r.2)

/-- `find_dev_sdk(version_id)`, with the per-branch catalog fetch modelled
as the `fetch` argument. -/
def find_dev_sdk (fetch : String → Option (List Snap)) (vid : String) :
    Option SdkInfo :=
  (devLoop fetch vid (branchesToTry vid)).1

/-- Environment of one `install-sdk.py` run: the outcome of each external
effect the script can perform. -/
structure InstallEnv where
  /-- Result of fetching `releases.json`; `none` = exception in `fetch_json`. -/
  releases : Option (List Release)
  /-- Exception text printed when the releases fetch fails. -/
  releasesErr : String
  /-- Result of fetching each branch's `wasm-sdk.json`. -/
  snaps : String → Option (List Snap)
  /-- Exception text printed when a branch fetch fails. -/
  snapErr : String → String
  /-- Whether `swift sdk install` exits with status 0. -/
  installOk : Bool
  /-- Captured combined output of `swift sdk install`. -/
  installOutput : String

/-- Dispatch test of `main` in `install-sdk.py`:
`"-RELEASE" in version_id or re.match(r"^[0-9.]+$", version_id)`. -/
def dispatchRelease (vid : String) : Bool :=
  pyIn "-RELEASE" vid || reFullNumeric vid

/-- The first lookup `main` performs after dispatch. -/
def firstLookup (env : InstallEnv) (vid : String) : Option SdkInfo :=
  if dispatchRelease vid then find_release_sdk env.releases vid
  else find_dev_sdk env.snaps vid

/-- Branches whose snapshot catalog the first (snapshot) lookup fetches. -/
def devBranchesTried (env : InstallEnv) (vid : String) : List String :=
  (devLoop env.snaps vid (branchesToTry vid)).2

/-- Catalog URLs fetched by the first lookup. -/
def firstCalls (env : InstallEnv) (vid : String) : List String :=
  if dispatchRelease vid then [releasesUrl]
  else (devBranchesTried env vid).map devCatalogUrl

/-- Error lines printed by `fetch_json` during the releases fetch. -/
def relFetchLines (env : InstallEnv) : List String :=
  if env.releases.isNone then [fetchErrLine releasesUrl env.releasesErr] else []

/-- Error lines printed by `fetch_json` during the snapshot branch loop. -/
def devErrLines (env : InstallEnv) (bs : List String) : List String :=
  bs.filterMap fun b =>
    if (env.snaps b).isNone then
      some (fetchErrLine (devCatalogUrl b) (env.snapErr b))
    else none

/-- `sdk_info` after `main`'s one-shot fallback: when the first lookup
failed and the identity matches `re.search(r"[0-9.]+", ...)`, retry via
`find_release_sdk`. -/
def resolvedSdk (env : InstallEnv) (vid : String) : Option SdkInfo :=
  if (firstLookup env vid).isNone && reSearchNumeric vid then
    find_release_sdk env.releases vid
  else firstLookup env vid

/-- The three lines `main` prints when it detects an Xcode toolchain. -/
def vendorLines (vid : String) : List String :=
  ["Error: Detected Xcode toolchain (" ++ vid ++ ").",
   "Swift SDK for WebAssembly requires an OSS toolchain from swift.org.",
   "Please install one via 'swiftly' or from the swift.org download page."]

/-- `main()` of `install-sdk.py`.  `probed` is the value returned by
`get_swift_version()` (`none` = it returned `None`); the Python guard
`if not version_id:` is falsy for both `None` and the empty string, so
both exit immediately with code 1 and no network call.  The process-level
effects (network fetches, `swift sdk install`) come from `env`. -/
def installMain (env : InstallEnv) (probed : Option String) : RunResult :=
  match probed with
  | none => ⟨1, [], ["Could not determine Swift version from 'swiftc'"]⟩
  | some vid =>
    if vid = "" then
      ⟨1, [], ["Could not determine Swift version from 'swiftc'"]⟩
    else if pyStartsWith vid "swiftlang-" then
      ⟨1, [], vendorLines vid⟩
    else
      let header := "Detected Swift version ID: " ++ vid
      let sdk1 := firstLookup env vid
      let lines1 :=
        if dispatchRelease vid then relFetchLines env
        else devErrLines env (devBranchesTried env vid)
      let retry := sdk1.isNone && reSearchNumeric vid
      let calls2 := firstCalls env vid ++ (if retry then [releasesUrl] else [])
      let lines2 := lines1 ++
        (if sdk1.isNone then
          ["Could not find a matching Wasm SDK for version " ++ vid]
         else []) ++
        (if retry then relFetchLines env else [])
      match resolvedSdk env vid with
      | some info =>
        let pre :=
          ["Found Wasm SDK:",
           "  URL: " ++ info.url,
           "  Checksum: " ++ info.checksum,
           "Running: swift sdk install " ++ info.url ++ " --checksum " ++
             info.checksum]
        if env.installOk then
          ⟨0, calls2, header :: lines2 ++ pre ++
            [env.installOutput,
             "Successfully installed Swift SDK for WebAssembly."]⟩
        else if pyIn "already installed" env.installOutput then
          ⟨0, calls2, header :: lines2 ++ pre ++
            [env.installOutput,
             "Swift SDK for WebAssembly is already installed."]⟩
        else
          ⟨1, calls2, header :: lines2 ++ pre ++
            ["Error installing SDK: " ++ env.installOutput]⟩
      | none =>
        ⟨1, calls2, header :: lines2 ++
          ["No matching SDK found. Please install manually from https://www.swift.org/download/"]⟩

/-- `tag_core` computed by `doctor.py`:
`compiler_tag.replace("swift-", "").replace("-RELEASE", "")`. -/
def tagCore (tag : String) : String :=
  pyReplace (pyReplace tag "swift-" "") "-RELEASE" ""

/-- Model of the structured `-print-target-info` output: only the
`swiftCompilerTag` field matters to the scripts; `none` = field absent. -/
structure TargetInfo where
  swiftCompilerTag : Option String
deriving DecidableEq, Repr

/-- Environment of one `doctor.py` run. -/
structure DoctorEnv where
  /-- `shutil.which("swiftc")` finds the compiler. -/
  swiftcFound : Bool
  /-- `shutil.which("node")` succeeds. -/
  nodeFound : Bool
  /-- `shutil.which("npm")` succeeds. -/
  npmFound : Bool
  /-- `get_target_info()` result; `none` = it returned `None`. -/
  targetInfo : Option TargetInfo
  /-- Output of `swift sdk list`; `none` = the subprocess raised. -/
  sdkListOut : Option String
deriving DecidableEq, Repr

/-- The line printed by `check_cmd(cmd, name)`. -/
def checkCmdLine (found : Bool) (name cmd : String) : String :=
  if found then "[OK] " ++ name ++ " found"
  else "[ERROR] " ++ name ++ " not found (" ++ cmd ++ ")"

/-- `main()` of `doctor.py`.  The script performs no network fetch, so
`netCalls` is always empty. -/
def doctorMain (env : DoctorEnv) : RunResult :=
  let l0 := ["Checking environment for Swift WebAssembly development...", ""]
  if !env.swiftcFound then
    ⟨1, [], l0 ++ [checkCmdLine false "Swift compiler" "swiftc",
      "   Please install Swift from https://www.swift.org/install/ or via 'swiftly'."]⟩
  else
    let l1 := l0 ++ [checkCmdLine true "Swift compiler" "swiftc"]
    match env.targetInfo with
    | none => ⟨1, [], l1 ++ ["[ERROR] Failed to get Swift target info."]⟩
    | some info =>
      let compilerTag := info.swiftCompilerTag.getD ""
      if pyStartsWith compilerTag "swiftlang-" then
        ⟨1, [], l1 ++
          ["[ERROR] Detected Xcode toolchain (" ++ compilerTag ++ ").",
           "   Swift SDK for WebAssembly requires an OSS toolchain from swift.org.",
           "   Please use 'swiftly use' or select an OSS toolchain in your environment."]⟩
      else
        let l2 := l1 ++
          (if compilerTag != "" then
            ["[OK] OSS toolchain detected (" ++ compilerTag ++ ")"]
           else
            ["[WARNING] Could not determine Swift compiler tag. Assuming OSS toolchain."]) ++
          [checkCmdLine env.nodeFound "Node.js" "node",
           checkCmdLine env.npmFound "npm" "npm"]
        let sdkList := env.sdkListOut.getD ""
        let tc := tagCore compilerTag
        if tc == "" then
          if pyIn "wasm" (pyLower sdkList) then
            ⟨0, [], l2 ++
              ["[OK] Swift SDK for WebAssembly detected (general check)", "",
               "Environment is ready for Swift WebAssembly development!"]⟩
          else
            ⟨1, [], l2 ++
              ["[ERROR] Swift SDK for WebAssembly not found.",
               "   Please run './scripts/install-sdk.py' to install it."]⟩
        else
          if pyIn tc sdkList then
            ⟨0, [], l2 ++
              ["[OK] Matching Swift SDK for WebAssembly found (" ++ tc ++ ")", "",
               "Environment is ready for Swift WebAssembly development!"]⟩
          else
            ⟨1, [], l2 ++
              ["[ERROR] No matching Swift SDK for WebAssembly found for toolchain " ++
                 compilerTag ++ ".",
               "   Please run './scripts/install-sdk.py' to automatically install the matching SDK."]⟩

theorem listPrefixB_self_append (p r : List Char) :
    listPrefixB p (p ++ r) = true := by
  induction p with
  | nil => rfl
  | cons a as ih => simp [listPrefixB, ih]

theorem listPrefixB_iff (n : List Char) : ∀ h : List Char,
    listPrefixB n h = true ↔ n <+: h := by
  induction n with
  | nil => intro h; simp [listPrefixB, List.nil_prefix]
  | cons a as ih =>
    intro h
    cases h with
    | nil => simp [listPrefixB]
    | cons b bs => simp [listPrefixB, List.cons_prefix_cons, ih]

theorem listInfixB_iff (n h : List Char) :
    listInfixB n h = true ↔ n <:+: h := by
  induction h with
  | nil => simp [listInfixB, List.infix_nil, List.isEmpty_iff]
  | cons c cs ih =>
    simp [listInfixB, List.infix_cons_iff, ih, listPrefixB_iff]

theorem pyIn_iff (a b : String) : pyIn a b = true ↔ a.data <:+: b.data :=
  listInfixB_iff a.data b.data

theorem replList_head (old new rest : List Char) (h : old ≠ []) :
    replList old new (old ++ rest) = new ++ replList old new rest := by
  cases old with
  | nil => exact absurd rfl h
  | cons o os =>
    have hp : listPrefixB (o :: os) ((o :: os) ++ rest) = true :=
      listPrefixB_self_append _ _
    rw [List.cons_append, replList]
    rw [List.cons_append] at hp
    simp only [List.isEmpty_cons, Bool.not_false, hp, Bool.and_self, if_pos]
    congr 1
    rw [List.length_cons, Nat.add_sub_cancel, List.drop_left]

theorem replList_skip (old new : List Char) : ∀ (xs ys : List Char),
    (∀ c ∈ xs, ¬ old.head? = some c) →
    replList old new (xs ++ ys) = xs ++ replList old new ys := by
  intro xs
  induction xs with
  | nil => intro ys _; simp
  | cons c cs ih =>
    intro ys h
    have hcond : (!old.isEmpty && listPrefixB old (c :: (cs ++ ys))) = false := by
      cases old with
      | nil => simp
      | cons o os =>
        have hoc : (o == c) = false := by
          have := h c (by simp)
          simp only [List.head?_cons, Option.some.injEq] at this
          simp [this]
        simp [listPrefixB, hoc]
    rw [List.cons_append, replList, hcond, if_neg (by simp)]
    rw [ih ys fun d hd => h d (by simp [hd])]
    rfl

theorem findWasmPlatform_eq_some (ps : List Platform) (p : Platform)
    (h : findWasmPlatform ps = some p) :
    p ∈ ps ∧ p.platform = "wasm-sdk" := by
  induction ps with
  | nil => simp [findWasmPlatform] at h
  | cons q qs ih =>
    by_cases hq : (q.platform == "wasm-sdk") = true
    · rw [findWasmPlatform, if_pos hq] at h
      cases h
      exact ⟨List.mem_cons_self _ _, by simpa using hq⟩
    · rw [findWasmPlatform, if_neg hq] at h
      obtain ⟨hm, hp⟩ := ih h
      exact ⟨List.mem_cons_of_mem _ hm, hp⟩

theorem searchReleases_eq (norm vid : String) (rs : List Release) :
    searchReleases norm vid rs =
      (rs.find? fun r =>
        releaseMatches norm vid r && (findWasmPlatform r.platforms).isSome).bind
        fun r => (findWasmPlatform r.platforms).map fun p =>
          (⟨releaseUrl r.name r.tag, p.checksum⟩ : SdkInfo) := by
  induction rs with
  | nil => rfl
  | cons r rs ih =>
    by_cases hm : releaseMatches norm vid r = true
    · cases hw : findWasmPlatform r.platforms with
      | some p =>
        rw [searchReleases, if_pos hm, hw,
          List.find?_cons_of_pos _ (by simp [hm, hw]), Option.some_bind, hw]
        rfl
      | none =>
        rw [searchReleases, if_pos hm, hw,
          List.find?_cons_of_neg _ (by simp [hw]), ih]
    · rw [searchReleases, if_neg hm,
        List.find?_cons_of_neg _ (by simp [hm]), ih]

theorem devLoop_fst_cons (fetch : String → Option (List Snap))
    (vid b : String) (bs : List String) :
    (devLoop fetch vid (b :: bs)).1 =
      (branchLookup fetch vid b <|> (devLoop fetch vid bs).1) := by
  cases hf : fetch b with
  | none => simp [devLoop, branchLookup, hf]
  | some l =>
    cases l with
    | nil => simp [devLoop, branchLookup, hf, searchSnaps]
    | cons s ss =>
      cases hs : searchSnaps vid (s :: ss) with
      | some x => simp [devLoop, branchLookup, hf, hs]
      | none => simp [devLoop, branchLookup, hf, hs]

theorem devLoop_snd_cons (fetch : String → Option (List Snap))
    (vid b : String) (bs : List String) :
    ∃ t, (devLoop fetch vid (b :: bs)).2 = b :: t := by
  cases hf : fetch b with
  | none => exact ⟨(devLoop fetch vid bs).2, by simp [devLoop, hf]⟩
  | some l =>
    cases l with
    | nil => exact ⟨(devLoop fetch vid bs).2, by simp [devLoop, hf]⟩
    | cons s ss =>
      cases hs : searchSnaps vid (s :: ss) with
      | some x => exact ⟨[], by simp [devLoop, hf, hs]⟩
      | none => exact ⟨(devLoop fetch vid bs).2, by simp [devLoop, hf, hs]⟩

theorem find_release_sdk_eq (rs : List Release) (vid : String) :
    find_release_sdk (some rs) vid =
      (rs.find? fun r =>
        releaseMatches (normVersion vid) vid r &&
          (findWasmPlatform r.platforms).isSome).bind
        fun r => (findWasmPlatform r.platforms).map fun p =>
          (⟨releaseUrl r.name r.tag, p.checksum⟩ : SdkInfo) := by
  cases rs with
  | nil => rfl
  | cons r rs =>
    show (if (r :: rs).isEmpty then none
      else searchReleases (normVersion vid) vid (r :: rs)) = _
    rw [if_neg (by simp)]
    exact searchReleases_eq _ _ _

/-- **C1** (corrected).  The claim says resolution fails with NotFound when
the *first* name-or-tag-matching entry has no `wasm-sdk` platform, no later
entry being consulted.  The code disagrees: the Python loop falls through to
later catalog entries.  Amended: release lookup returns the artifact from
the first catalog entry that both matches by name-or-tag and carries a
`wasm-sdk` platform sub-entry; if no such entry exists it returns NotFound. -/
theorem C1_release_first_matching_with_wasm (cat : List Release) (vid : String) :
    find_release_sdk (some cat) vid =
      (cat.find? fun r =>
        releaseMatches (normVersion vid) vid r &&
          (findWasmPlatform r.platforms).isSome).bind
        fun r => (findWasmPlatform r.platforms).map fun p =>
          (⟨releaseUrl r.name r.tag, p.checksum⟩ : SdkInfo) :=
  find_release_sdk_eq cat vid

/-- **C1** counterexample: with identity `6.2.3` and a catalog whose first
matching entry (`t1`) has no `wasm-sdk` platform while the second (`t2`)
has one, the claim demands NotFound, but the code returns the artifact of
the second entry. -/
theorem C1_counterexample :
    List.find? (fun r => releaseMatches (normVersion "6.2.3") "6.2.3" r)
        [⟨"6.2.3", "t1", [⟨"linux", "x"⟩]⟩, ⟨"6.2.3", "t2", [⟨"wasm-sdk", "y"⟩]⟩] =
      some ⟨"6.2.3", "t1", [⟨"linux", "x"⟩]⟩ ∧
    findWasmPlatform [⟨"linux", "x"⟩] = none ∧
    find_release_sdk
        (some [⟨"6.2.3", "t1", [⟨"linux", "x"⟩]⟩,
               ⟨"6.2.3", "t2", [⟨"wasm-sdk", "y"⟩]⟩]) "6.2.3" =
      some ⟨releaseUrl "6.2.3" "t2", "y"⟩ :=
  ⟨rfl, rfl, rfl⟩

/-- **C4** (confirmed).  Within a fetched snapshot catalog, an entry matches
the identity exactly when its `dir` is a substring of the identity or the
identity is a substring of `dir` (symmetric containment, stated here with
the mathematical infix relation on character lists), and the first matching
entry in catalog order is returned, as the artifact built from its `dir`,
`download` and `checksum`. -/
theorem C4_snapshot_match (vid : String) (l : List Snap) :
    searchSnaps vid l =
      (l.find? fun s =>
        decide (s.dir.data <:+: vid.data ∨ vid.data <:+: s.dir.data)).map
        fun s => (⟨devUrl s.dir s.download, s.checksum⟩ : SdkInfo) := by
  induction l with
  | nil => rfl
  | cons s ss ih =>
    have hpred : (pyIn s.dir vid || pyIn vid s.dir) =
        decide (s.dir.data <:+: vid.data ∨ vid.data <:+: s.dir.data) := by
      rw [Bool.eq_iff_iff]
      simp [pyIn_iff]
    cases hp : (pyIn s.dir vid || pyIn vid s.dir) with
    | true =>
      rw [searchSnaps, if_pos hp, List.find?_cons_of_pos _ (hpred ▸ hp)]
      rfl
    | false =>
      rw [searchSnaps, if_neg (by simp [hp]),
        List.find?_cons_of_neg _ (by rw [← hpred]; simp [hp]), ih]

/-- **C3** (confirmed).  For the identity
`swift-6.2-DEVELOPMENT-SNAPSHOT-2024-12-10-a` the candidate branches are
tried in exactly the order `swift-6.2-release`, `swift-6.2-branch`, `main`,
and the result is that of the first branch whose fetch succeeds with a
matching entry (`branchLookup` is `none` exactly when the branch's fetch
failed, returned an empty list, or contained no matching entry). -/
theorem C3_branch_order (fetch : String → Option (List Snap)) :
    branchesToTry "swift-6.2-DEVELOPMENT-SNAPSHOT-2024-12-10-a" =
      ["swift-6.2-release", "swift-6.2-branch", "main"] ∧
    find_dev_sdk fetch "swift-6.2-DEVELOPMENT-SNAPSHOT-2024-12-10-a" =
      (branchLookup fetch "swift-6.2-DEVELOPMENT-SNAPSHOT-2024-12-10-a"
          "swift-6.2-release" <|>
       branchLookup fetch "swift-6.2-DEVELOPMENT-SNAPSHOT-2024-12-10-a"
          "swift-6.2-branch" <|>
       branchLookup fetch "swift-6.2-DEVELOPMENT-SNAPSHOT-2024-12-10-a"
          "main") := by
  have hb : branchesToTry "swift-6.2-DEVELOPMENT-SNAPSHOT-2024-12-10-a" =
      ["swift-6.2-release", "swift-6.2-branch", "main"] := rfl
  refine ⟨hb, ?_⟩
  rw [find_dev_sdk, hb, devLoop_fst_cons, devLoop_fst_cons, devLoop_fst_cons]
  simp [devLoop]

/-- **C7** (confirmed).  Whenever release lookup succeeds, the returned
artifact is the fixed URL template instantiated with the matching entry's
`name` and `tag`, paired with the checksum of that entry's `wasm-sdk`
platform sub-entry. -/
theorem C7_release_url_template (cat : List Release) (vid : String)
    (art : SdkInfo) (h : find_release_sdk (some cat) vid = some art) :
    ∃ r ∈ cat, releaseMatches (normVersion vid) vid r = true ∧
      ∃ p ∈ r.platforms, p.platform = "wasm-sdk" ∧
        art = ⟨releaseUrl r.name r.tag, p.checksum⟩ := by
  rw [find_release_sdk_eq] at h
  cases hf : cat.find? fun r =>
      releaseMatches (normVersion vid) vid r &&
        (findWasmPlatform r.platforms).isSome with
  | none => rw [hf] at h; exact absurd h (by simp)
  | some r =>
    rw [hf] at h
    simp only [Option.some_bind] at h
    cases hw : findWasmPlatform r.platforms with
    | none => rw [hw] at h; exact absurd h (by simp)
    | some p =>
      rw [hw] at h
      simp only [Option.map_some', Option.some.injEq] at h
      obtain ⟨hp_mem, hp_wasm⟩ := findWasmPlatform_eq_some _ _ hw
      refine ⟨r, List.mem_of_find?_eq_some hf, ?_, p, hp_mem, hp_wasm, h.symm⟩
      have := List.find?_some hf
      simp only [Bool.and_eq_true] at this
      exact this.1

/-- Witness for C7: the end-to-end scenario of the spec, identity
`swift-6.2.3-RELEASE` against a one-entry catalog. -/
theorem C7_witness :
    ∃ r ∈ [(⟨"6.2.3", "swift-6.2.3-RELEASE",
        [⟨"wasm-sdk", "abc123"⟩]⟩ : Release)],
      releaseMatches (normVersion "swift-6.2.3-RELEASE")
        "swift-6.2.3-RELEASE" r = true ∧
      ∃ p ∈ r.platforms, p.platform = "wasm-sdk" ∧
        (⟨"https://download.swift.org/swift-6.2.3-release/wasm-sdk/swift-6.2.3-RELEASE/swift-6.2.3-RELEASE_wasm.artifactbundle.tar.gz",
          "abc123"⟩ : SdkInfo) = ⟨releaseUrl r.name r.tag, p.checksum⟩ :=
  C7_release_url_template
    [⟨"6.2.3", "swift-6.2.3-RELEASE", [⟨"wasm-sdk", "abc123"⟩]⟩]
    "swift-6.2.3-RELEASE" _ rfl

theorem normVersion_wrap (ver : String) :
    normVersion ("swift-" ++ ver ++ "-RELEASE") = ver := by
  have hd2 : ("swift-" ++ ver ++ "-RELEASE").data =
      ("swift-".data ++ ver.data) ++ "-RELEASE".data := by
    rw [String.data_append, String.data_append]
  have hstart : pyStartsWith ("swift-" ++ ver ++ "-RELEASE") "swift-" = true := by
    unfold pyStartsWith
    rw [hd2, List.append_assoc]
    exact listPrefixB_self_append _ _
  have hend : pyEndsWith ("swift-" ++ ver ++ "-RELEASE") "-RELEASE" = true := by
    unfold pyEndsWith
    rw [hd2, List.reverse_append]
    exact listPrefixB_self_append _ _
  have hcond : (pyStartsWith ("swift-" ++ ver ++ "-RELEASE") "swift-" &&
      pyEndsWith ("swift-" ++ ver ++ "-RELEASE") "-RELEASE") = true := by
    rw [hstart, hend]; rfl
  have hlist : (("swift-" ++ ver ++ "-RELEASE").data.take
      (("swift-" ++ ver ++ "-RELEASE").data.length - 8)).drop 6 = ver.data := by
    rw [hd2]
    have hr : ("-RELEASE".data).length = 8 := rfl
    rw [List.length_append, hr, Nat.add_sub_cancel, List.take_left]
    exact List.drop_left' rfl
  unfold normVersion
  rw [hcond, if_pos rfl, hlist]

theorem tagCore_wrap (ver : String)
    (hv : ∀ c ∈ ver.data, isVerChar c = true) :
    tagCore ("swift-" ++ ver ++ "-RELEASE") = ver := by
  have hd : ("swift-" ++ ver ++ "-RELEASE").data =
      "swift-".data ++ (ver.data ++ "-RELEASE".data) := by
    rw [String.data_append, String.data_append, List.append_assoc]
  have hs : ∀ c ∈ ver.data ++ "-RELEASE".data,
      ¬ ("swift-".data.head? = some c) := by
    intro c hc
    have h1 : "swift-".data.head? = some 's' := rfl
    rw [h1]
    simp only [Option.some.injEq]
    intro he
    rcases List.mem_append.mp hc with h | h
    · have hvc := hv c h
      rw [← he] at hvc
      exact absurd hvc (by decide)
    · rw [← he] at h
      exact absurd h (by decide)
  have hs2 : ∀ c ∈ ver.data, ¬ ("-RELEASE".data.head? = some c) := by
    intro c hc
    have h1 : "-RELEASE".data.head? = some '-' := rfl
    rw [h1]
    simp only [Option.some.injEq]
    intro he
    have hvc := hv c hc
    rw [← he] at hvc
    exact absurd hvc (by decide)
  have step1 : replList "swift-".data [] ("swift-" ++ ver ++ "-RELEASE").data =
      ver.data ++ "-RELEASE".data := by
    rw [hd, replList_head _ _ _ (by decide), List.nil_append]
    have hskip := replList_skip "swift-".data []
      (ver.data ++ "-RELEASE".data) [] hs
    rw [List.append_nil] at hskip
    rw [hskip]
    simp [replList]
  have step2 : replList "-RELEASE".data []
      (ver.data ++ "-RELEASE".data) = ver.data := by
    rw [replList_skip _ _ _ _ hs2]
    have hh := replList_head "-RELEASE".data [] [] (by decide)
    rw [List.append_nil] at hh
    rw [hh]
    simp [replList]
  have hrfl : tagCore ("swift-" ++ ver ++ "-RELEASE") =
      ⟨replList "-RELEASE".data []
        (replList "swift-".data [] ("swift-" ++ ver ++ "-RELEASE").data)⟩ := rfl
  rw [hrfl, step1, step2]

/-- **C6** (confirmed).  For every identity of the shape
`swift-<ver>-RELEASE` with `<ver>` made of digits and dots, both the
resolver's normalization in install-sdk (`version_id[6:-8]`) and the
tag-core normalization in doctor (`replace("swift-", "")` then
`replace("-RELEASE", "")`) yield the bare version `<ver>`. -/
theorem C6_normalization (ver : String)
    (hv : ∀ c ∈ ver.data, isVerChar c = true) :
    normVersion ("swift-" ++ ver ++ "-RELEASE") = ver ∧
    tagCore ("swift-" ++ ver ++ "-RELEASE") = ver :=
  ⟨normVersion_wrap ver, tagCore_wrap ver hv⟩

/-- Witness for C6 at `ver = "6.2.3"`. -/
theorem C6_witness :
    (∀ c ∈ ("6.2.3" : String).data, isVerChar c = true) ∧
    (normVersion ("swift-" ++ "6.2.3" ++ "-RELEASE") = "6.2.3" ∧
     tagCore ("swift-" ++ "6.2.3" ++ "-RELEASE") = "6.2.3") :=
  ⟨by decide, C6_normalization "6.2.3" (by decide)⟩

theorem installMain_netCalls (env : InstallEnv) (vid : String)
    (h0 : vid ≠ "") (h : pyStartsWith vid "swiftlang-" = false) :
    (installMain env (some vid)).netCalls =
      firstCalls env vid ++
        (if (firstLookup env vid).isNone && reSearchNumeric vid then
          [releasesUrl]
         else []) := by
  simp only [installMain, if_neg h0, h, Bool.false_eq_true, if_false]
  cases hr : resolvedSdk env vid with
  | some info =>
    by_cases hk : env.installOk = true
    · simp [hk]
    · by_cases ha : pyIn "already installed" env.installOutput = true
      · simp [hk, ha]
      · simp [hk, ha]
  | none => simp

theorem installMain_exit_of_none (env : InstallEnv) (vid : String)
    (h0 : vid ≠ "") (h : pyStartsWith vid "swiftlang-" = false)
    (hr : resolvedSdk env vid = none) :
    (installMain env (some vid)).exitCode = 1 := by
  simp only [installMain, if_neg h0, h, Bool.false_eq_true, if_false]
  rw [hr]

theorem branchesToTry_cons (vid : String) :
    ∃ b bs, branchesToTry vid = b :: bs := by
  cases hm : reMatchSwiftDev vid <;> cases hv : reMatchSwiftVer vid <;>
    by_cases hd : pyIn "DEVELOPMENT" vid = true <;>
      simp [branchesToTry, hm, hv, hd]

/-- **C2** (confirmed).  A vendor identity (`swiftlang-*`) makes both entry
points exit with code 1 printing the vendor-toolchain guidance; the install
entry point performs zero network calls (its `netCalls` trace is empty),
and the doctor entry point performs none by construction (it contains no
fetch at all), so the identity never reaches the catalog resolver. -/
theorem C2_vendor_short_circuit (env : InstallEnv) (denv : DoctorEnv)
    (vid : String) (h : pyStartsWith vid "swiftlang-" = true)
    (h2 : denv.swiftcFound = true)
    (h3 : denv.targetInfo = some ⟨some vid⟩) :
    installMain env (some vid) = ⟨1, [], vendorLines vid⟩ ∧
    doctorMain denv =
      ⟨1, [],
       ["Checking environment for Swift WebAssembly development...", "",
        "[OK] Swift compiler found",
        "[ERROR] Detected Xcode toolchain (" ++ vid ++ ").",
        "   Swift SDK for WebAssembly requires an OSS toolchain from swift.org.",
        "   Please use 'swiftly use' or select an OSS toolchain in your environment."]⟩ := by
  constructor
  · have h0 : vid ≠ "" := by
      intro e
      rw [e] at h
      exact absurd h (by decide)
    simp [installMain, h0, h]
  · obtain ⟨sw, nd, np, ti, sl⟩ := denv
    simp only at h2 h3
    subst h2 h3
    unfold doctorMain
    simp [checkCmdLine, h]

/-- Witness for C2: identity `swiftlang-5.9`, matching the spec's
end-to-end scenario. -/
theorem C2_witness :
    installMain ⟨none, "", fun _ => none, fun _ => "", true, ""⟩
        (some "swiftlang-5.9") = ⟨1, [], vendorLines "swiftlang-5.9"⟩ ∧
    doctorMain ⟨true, true, true, some ⟨some "swiftlang-5.9"⟩, some ""⟩ =
      ⟨1, [],
       ["Checking environment for Swift WebAssembly development...", "",
        "[OK] Swift compiler found",
        "[ERROR] Detected Xcode toolchain (" ++ "swiftlang-5.9" ++ ").",
        "   Swift SDK for WebAssembly requires an OSS toolchain from swift.org.",
        "   Please use 'swiftly use' or select an OSS toolchain in your environment."]⟩ :=
  C2_vendor_short_circuit _ _ "swiftlang-5.9" (by decide) rfl rfl

/-- **C5** (confirmed).  For every identity that reaches dispatch (i.e.
past the falsy gate `if not version_id:` and the vendor check), the first
catalog URL the install entry point contacts is the stable release catalog
exactly when the identity contains `-RELEASE` or matches the bare-numeric
pattern, and the first candidate snapshot-branch catalog otherwise:
dispatch routes release markers to release lookup and everything else to
snapshot lookup. -/
theorem C5_dispatch (env : InstallEnv) (vid : String)
    (h0 : vid ≠ "") (h : pyStartsWith vid "swiftlang-" = false) :
    (installMain env (some vid)).netCalls.head? =
      (if pyIn "-RELEASE" vid || reFullNumeric vid then some releasesUrl
       else ((branchesToTry vid).head?).map devCatalogUrl) := by
  rw [installMain_netCalls env vid h0 h]
  obtain ⟨b, bs, hb⟩ := branchesToTry_cons vid
  by_cases hd : dispatchRelease vid = true
  · rw [firstCalls, if_pos hd,
      List.head?_append_of_ne_nil _ (by simp)]
    rw [dispatchRelease] at hd
    rw [if_pos hd]
    rfl
  · obtain ⟨t, ht⟩ := devLoop_snd_cons env.snaps vid b bs
    rw [firstCalls, if_neg hd, devBranchesTried, hb, ht,
      List.map_cons, List.head?_append_of_ne_nil _ (by simp)]
    rw [dispatchRelease] at hd
    rw [if_neg hd]
    simp

/-- Witness for C5 at `vid = "swift-6.0.3-RELEASE"` (release dispatch). -/
theorem C5_witness :
    (installMain ⟨none, "", fun _ => none, fun _ => "", true, ""⟩
        (some "swift-6.0.3-RELEASE")).netCalls.head? =
      (if pyIn "-RELEASE" "swift-6.0.3-RELEASE" ||
          reFullNumeric "swift-6.0.3-RELEASE" then some releasesUrl
       else ((branchesToTry "swift-6.0.3-RELEASE").head?).map devCatalogUrl) :=
  C5_dispatch _ "swift-6.0.3-RELEASE" (by decide) (by decide)

/-- **C8** (corrected, amended form).  The claim restricts the one-shot
release retry to snapshot dispatch and to identities containing digits.
In the code the retry fires whenever the *first* lookup — of either kind —
returned nothing and the identity contains a digit *or a dot*
(`re.search(r"[0-9.]+", ...)`); it is appended exactly once, and when the
retry also fails the entry point exits with code 1.  The identity must be
nonempty, since an empty one exits at the falsy gate before any lookup. -/
theorem C8_fallback_retry (env : InstallEnv) (vid : String)
    (h0 : vid ≠ "") (h : pyStartsWith vid "swiftlang-" = false) :
    (installMain env (some vid)).netCalls =
      firstCalls env vid ++
        (if (firstLookup env vid).isNone && reSearchNumeric vid then
          [releasesUrl]
         else []) ∧
    (((firstLookup env vid).isNone && reSearchNumeric vid) = true →
      find_release_sdk env.releases vid = none →
      (installMain env (some vid)).exitCode = 1) := by
  refine ⟨installMain_netCalls env vid h0 h, fun hretry hrel => ?_⟩
  refine installMain_exit_of_none env vid h0 h ?_
  rw [resolvedSdk, if_pos hretry, hrel]

/-- Witness for C8: identity `dev1` (snapshot dispatch, contains a digit),
all fetches failing; the retry fires and the entry point exits 1. -/
theorem C8_witness :
    (installMain ⟨none, "e", fun _ => none, fun _ => "e", true, ""⟩
        (some "dev1")).netCalls =
      firstCalls ⟨none, "e", fun _ => none, fun _ => "e", true, ""⟩ "dev1" ++
        (if (firstLookup ⟨none, "e", fun _ => none, fun _ => "e", true, ""⟩
              "dev1").isNone && reSearchNumeric "dev1" then
          [releasesUrl]
         else []) ∧
    (((firstLookup ⟨none, "e", fun _ => none, fun _ => "e", true, ""⟩
          "dev1").isNone && reSearchNumeric "dev1") = true →
      find_release_sdk none "dev1" = none →
      (installMain ⟨none, "e", fun _ => none, fun _ => "e", true, ""⟩
          (some "dev1")).exitCode = 1) :=
  C8_fallback_retry ⟨none, "e", fun _ => none, fun _ => "e", true, ""⟩
    "dev1" (by decide) (by decide)

/-- **C8** counterexample: identity `swift-9.9.9-RELEASE` with a release
catalog that fetches successfully but is empty.  Dispatch chooses *release*
lookup, yet after it fails the code still performs the one-shot release
retry — the release endpoint is fetched twice — contradicting the claim
that the retry happens only when dispatch chose snapshot lookup. -/
theorem C8_counterexample :
    dispatchRelease "swift-9.9.9-RELEASE" = true ∧
    (installMain ⟨some [], "", fun _ => none, fun _ => "", true, ""⟩
        (some "swift-9.9.9-RELEASE")).netCalls = [releasesUrl, releasesUrl] ∧
    (installMain ⟨some [], "", fun _ => none, fun _ => "", true, ""⟩
        (some "swift-9.9.9-RELEASE")).exitCode = 1 :=
  ⟨rfl, rfl, rfl⟩

/-- **C9** (confirmed).  When a (nonempty, non-vendor) identity resolved
to an artifact and the external `swift sdk install` command exits
non-zero, the installer exits 1 — surfacing the captured output as the
failure message — exactly when the captured output lacks the
`already installed` marker; with the marker, the run is a success
(exit 0). -/
theorem C9_already_installed (env : InstallEnv) (vid : String)
    (h0 : vid ≠ "")
    (h1 : pyStartsWith vid "swiftlang-" = false)
    (h2 : (resolvedSdk env vid).isSome = true)
    (h3 : env.installOk = false) :
    ((installMain env (some vid)).exitCode =
      (if pyIn "already installed" env.installOutput then 0 else 1)) ∧
    (pyIn "already installed" env.installOutput = false →
      "Error installing SDK: " ++ env.installOutput ∈
        (installMain env (some vid)).lines) := by
  obtain ⟨info, hinfo⟩ := Option.isSome_iff_exists.mp h2
  simp only [installMain, if_neg h0, h1, Bool.false_eq_true, if_false]
  rw [hinfo]
  simp only [h3, Bool.false_eq_true, if_false]
  cases ha : pyIn "already installed" env.installOutput with
  | true => simp [ha]
  | false => simp [ha]

/-- Witness for C9: a resolvable identity, a failing install command whose
output contains the marker — the run is a success (both iff sides false). -/
theorem C9_witness :
    ((installMain ⟨some [⟨"6.2.3", "t", [⟨"wasm-sdk", "c"⟩]⟩], "",
          fun _ => none, fun _ => "", false, "Error: already installed"⟩
        (some "6.2.3")).exitCode =
      (if pyIn "already installed" "Error: already installed" then 0
       else 1)) ∧
    (pyIn "already installed" "Error: already installed" = false →
      "Error installing SDK: " ++ "Error: already installed" ∈
        (installMain ⟨some [⟨"6.2.3", "t", [⟨"wasm-sdk", "c"⟩]⟩], "",
            fun _ => none, fun _ => "", false, "Error: already installed"⟩
          (some "6.2.3")).lines) :=
  C9_already_installed
    ⟨some [⟨"6.2.3", "t", [⟨"wasm-sdk", "c"⟩]⟩], "",
      fun _ => none, fun _ => "", false, "Error: already installed"⟩
    "6.2.3" (by decide) (by decide) (by decide) rfl

/-- **C10** (confirmed).  In doctor mode, when the compiler tag is empty —
whether the `swiftCompilerTag` field is absent or present but empty — the
SDK presence check degrades to the general test: exit 0 exactly when the
lowercased `swift sdk list` output contains `wasm`, exit 1 otherwise; the
precise tag-substring check only runs for a non-empty `tag_core`. -/
theorem C10_doctor_general_check (node npm : Bool) (sdkl : String) :
    (doctorMain ⟨true, node, npm, some ⟨none⟩, some sdkl⟩).exitCode =
      (if pyIn "wasm" (pyLower sdkl) then 0 else 1) ∧
    (doctorMain ⟨true, node, npm, some ⟨some ""⟩, some sdkl⟩).exitCode =
      (if pyIn "wasm" (pyLower sdkl) then 0 else 1) := by
  constructor <;>
  · have hsw : pyStartsWith "" "swiftlang-" = false := by decide
    cases hw : pyIn "wasm" (pyLower sdkl) with
    | true => simp [doctorMain, hw, hsw, tagCore, pyReplace, replList]
    | false => simp [doctorMain, hw, hsw, tagCore, pyReplace, replList]
